import Mathlib

/-!
Verification of the AI-agent core (`backend/ai_agents/agents.py`).

Shallow embedding: the Python data model and operations are translated into
Lean definitions.  External effects are made explicit parameters:

  * the model endpoint (LangChain `ainvoke` / `bind_tools(...).ainvoke`) is an
    oracle `Dispatch → Except String String`, returning either the model's
    text or an exception message (Python `str(e)`, which may be empty);
  * the `MultiServerMCPClient` constructor, which may raise, is a parameter
    `List ServerConfig → Except String McpClient`;
  * `os.getenv` is a record `Env` of optional environment-variable values
    (Python returns the stored value even when it is the empty string).

Python truthiness is translated faithfully: `if self.mcp_client:` tests
`Option.isSome`, `if self.mcp_tools:` tests list non-emptiness, and
`if mcp_token:` tests that the optional string is present and non-empty.
-/

/-- Fixed default for `LITELLM_BASE_URL` in `AgentConfig.__post_init__`. -/
def defaultBaseUrl : String := "https://litellm-docker-545630944929.us-central1.run.app"

/-- Fixed default for `AI_MODEL_NAME` in `AgentConfig.__post_init__`. -/
def defaultModelName : String := "gemini-2.5-pro"

/-- Fixed default for `LITELLM_AUTH_TOKEN` in `AgentConfig.__post_init__`. -/
def defaultApiKey : String := "dummy-key"

/-- Default system prompt of `BaseAgent.__init__`. -/
def defaultSystemPrompt : String := "You are a helpful AI assistant."

/-- System prompt set by `SearchAgent.__init__`. -/
def searchSystemPrompt : String :=
  "Research assistant with web search tools. Use search for current info, cite sources."

/-- System prompt set by `ChatAgent.__init__`. -/
def chatSystemPrompt : String :=
  "Friendly conversational AI. Natural conversations, explanations, analysis. Helpful, harmless, honest."

/-- Fixed web-search MCP endpoint used by `SearchAgent.setup_web_search_mcp`. -/
def webSearchUrl : String := "https://mcp.codexhub.ai/web/mcp"

/-- Environment variables read by the module (`os.getenv`); `none` means unset.
A variable set to the empty string is `some ""` (Python `os.getenv` returns it,
it does not fall back to the default). -/
structure Env where
  litellm_base_url : Option String
  ai_model_name : Option String
  litellm_auth_token : Option String
  codexhub_mcp_auth_token : Option String
  deriving DecidableEq

/-- `AgentConfig` after `__post_init__` has run: three plain string fields. -/
structure AgentConfig where
  api_base_url : String
  model_name : String
  api_key : String
  deriving DecidableEq

/-- `AgentConfig(...)` + `__post_init__`: each field keeps an explicitly given
value (`is None` check, so an explicit empty string is kept), otherwise reads
the environment variable, otherwise takes the fixed default. -/
def AgentConfig.resolve (api_base_url model_name api_key : Option String) (env : Env) :
    AgentConfig :=
  { api_base_url := api_base_url.getD (env.litellm_base_url.getD defaultBaseUrl)
    model_name := model_name.getD (env.ai_model_name.getD defaultModelName)
    api_key := api_key.getD (env.litellm_auth_token.getD defaultApiKey) }

/-- A metadata value stored in `AgentResponse.metadata` (`Dict[str, Any]`);
the code only ever stores a string (model name) or an int (tools_used). -/
inductive MetaVal where
  | str (s : String)
  | nat (n : Nat)
  deriving DecidableEq

/-- `AgentResponse` (pydantic `BaseModel`): the type itself constrains only the
field types; `metadata` defaults to `{}` and `error` to `None`. -/
structure AgentResponse where
  success : Bool
  content : String
  metadata : List (String × MetaVal)
  error : Option String
  deriving DecidableEq

/-- The spec's `AgentResponse` invariant (section 3 / section 8):
`success = true` implies `error` absent; `success = false` implies empty
`content` and `error` present. -/
def responseInvariant (r : AgentResponse) : Prop :=
  (r.success = true → r.error = none) ∧
  (r.success = false → r.content = "" ∧ r.error.isSome = true)

instance (r : AgentResponse) : Decidable (responseInvariant r) := by
  unfold responseInvariant
  infer_instance

/-- One MCP server description, as built by `setup_web_search_mcp`:
`{"type": ..., "url": ..., "headers": {...}}`. -/
structure ServerConfig where
  type : String
  url : String
  headers : List (String × String)
  deriving DecidableEq

/-- A constructed `MultiServerMCPClient` handle, identified by the server
descriptions it was created from. -/
structure McpClient where
  server_configs : List ServerConfig
  deriving DecidableEq

/-- An MCP tool.  The code declares `self.mcp_tools: list` but never binds any
tool into it; the type is kept abstract as a named record. -/
structure Tool where
  name : String
  deriving DecidableEq

/-- Agent state: `BaseAgent`'s fields.  The `self.llm` handle is fully
determined by `config` (base url, api key, model name) and carries no further
state, so it is not duplicated here. -/
structure Agent where
  config : AgentConfig
  system_prompt : String
  mcp_client : Option McpClient
  mcp_tools : List Tool
  deriving DecidableEq

/-- A LangChain message (`SystemMessage` / `HumanMessage`). -/
structure Message where
  role : String
  content : String
  deriving DecidableEq

/-- The two dispatch paths of `BaseAgent.execute`: `bind_tools` + `ainvoke`,
or plain `ainvoke`. -/
inductive Dispatch where
  | withTools (messages : List Message) (tools : List Tool)
  | plain (messages : List Message)
  deriving DecidableEq

/-- `BaseAgent.__init__`: stores config and system prompt, leaves the MCP
client unset and the tool list empty. -/
def BaseAgent.init (config : AgentConfig) (system_prompt : String) : Agent :=
  { config := config
    system_prompt := system_prompt
    mcp_client := none
    mcp_tools := [] }

/-- `BaseAgent.setup_mcp`: tries to construct `MultiServerMCPClient`; on
success stores it and resets `mcp_tools` to `[]`; on any exception logs and
sets `mcp_client = None` (the tool list is not touched in the except branch). -/
def setup_mcp (a : Agent) (clientCtor : List ServerConfig → Except String McpClient)
    (server_configs : List ServerConfig) : Agent :=
  match clientCtor server_configs with
  | Except.ok client => { a with mcp_client := some client, mcp_tools := [] }
  | Except.error _ => { a with mcp_client := none }

/-- The `[SystemMessage(...), HumanMessage(...)]` pair built by `execute`. -/
def mkMessages (a : Agent) (prompt : String) : List Message :=
  [{ role := "system", content := a.system_prompt },
   { role := "human", content := prompt }]

/-- The branch condition of `execute`:
`if use_tools and self.mcp_client and self.mcp_tools:` (Python truthiness:
the client must be set and the tool list non-empty). -/
def execDispatch (a : Agent) (prompt : String) (use_tools : Bool) : Dispatch :=
  if use_tools && a.mcp_client.isSome && !a.mcp_tools.isEmpty then
    Dispatch.withTools (mkMessages a prompt) a.mcp_tools
  else
    Dispatch.plain (mkMessages a prompt)

/-- `BaseAgent.execute`: dispatches the two-message exchange through the
oracle; wraps success as `AgentResponse(success=True, content=...,
metadata={"model": ..., "tools_used": len(mcp_tools) if use_tools else 0})`
and any exception as `AgentResponse(success=False, content="", error=str(e))`.
The whole body sits in a `try`, so the function is total: the post-state of
`self` is returned explicitly (no field of `self` is ever assigned). -/
def execute (a : Agent) (oracle : Dispatch → Except String String)
    (prompt : String) (use_tools : Bool) : Agent × AgentResponse :=
  match oracle (execDispatch a prompt use_tools) with
  | Except.ok content =>
      (a, { success := true
            content := content
            metadata := [("model", MetaVal.str a.config.model_name),
                         ("tools_used", MetaVal.nat (if use_tools then a.mcp_tools.length else 0))]
            error := none })
  | Except.error e =>
      (a, { success := false
            content := ""
            metadata := []
            error := some e })

/-- `BaseAgent.get_capabilities`: base list plus `"mcp_enabled"` when
`self.mcp_client` is truthy (set). -/
def get_capabilities (a : Agent) : List String :=
  if a.mcp_client.isSome then
    ["text_generation", "conversation"] ++ ["mcp_enabled"]
  else
    ["text_generation", "conversation"]

/-- `SearchAgent.setup_web_search_mcp`: reads `CODEXHUB_MCP_AUTH_TOKEN`;
`if mcp_token and mcp_token != "dummy-key":` (so an unset OR empty token is
falsy and skips setup) builds the single HTTP server description and calls
`setup_mcp`; otherwise leaves the agent untouched. -/
def setup_web_search_mcp (a : Agent) (env : Env)
    (clientCtor : List ServerConfig → Except String McpClient) : Agent :=
  match env.codexhub_mcp_auth_token with
  | some mcp_token =>
      if !(mcp_token == "") && !(mcp_token == "dummy-key") then
        setup_mcp a clientCtor
          [{ type := "http", url := webSearchUrl, headers := [("x-team-key", mcp_token)] }]
      else a
  | none => a

/-- `SearchAgent.__init__`: base init with the research prompt, then
`setup_web_search_mcp`. -/
def SearchAgent.init (config : AgentConfig) (env : Env)
    (clientCtor : List ServerConfig → Except String McpClient) : Agent :=
  setup_web_search_mcp (BaseAgent.init config searchSystemPrompt) env clientCtor

/-- `ChatAgent.__init__`: base init with the conversational prompt; no tool
setup ever. -/
def ChatAgent.init (config : AgentConfig) : Agent :=
  BaseAgent.init config chatSystemPrompt

/-- States an agent can reach through the module's public operations:
the three constructors, `setup_mcp`, and `execute` (whose post-state is the
first component of its result). -/
inductive Reachable : Agent → Prop where
  | base (config : AgentConfig) (sp : String) : Reachable (BaseAgent.init config sp)
  | chat (config : AgentConfig) : Reachable (ChatAgent.init config)
  | search (config : AgentConfig) (env : Env)
      (clientCtor : List ServerConfig → Except String McpClient) :
      Reachable (SearchAgent.init config env clientCtor)
  | setup (a : Agent) (clientCtor : List ServerConfig → Except String McpClient)
      (cfgs : List ServerConfig) : Reachable a → Reachable (setup_mcp a clientCtor cfgs)
  | exec (a : Agent) (oracle : Dispatch → Except String String) (p : String) (u : Bool) :
      Reachable a → Reachable (execute a oracle p u).1

/-- Concrete empty environment, for witnesses. -/
def envNone : Env := { litellm_base_url := none, ai_model_name := none,
                       litellm_auth_token := none, codexhub_mcp_auth_token := none }

/-- Concrete default-resolved configuration, for witnesses. -/
def cfg0 : AgentConfig := AgentConfig.resolve none none none envNone

/-- Oracle that always succeeds with a fixed answer, for witnesses. -/
def okOracle : Dispatch → Except String String := fun _ => Except.ok "Paris"

/-- Oracle that always raises with message "boom", for witnesses. -/
def boomOracle : Dispatch → Except String String := fun _ => Except.error "boom"

/-- Oracle that raises an exception whose `str(e)` is empty (Python
`Exception()`), for the C1 counterexample. -/
def emptyErrOracle : Dispatch → Except String String := fun _ => Except.error ""

/-- Client constructor that always succeeds, for witnesses. -/
def okCtor : List ServerConfig → Except String McpClient := fun cs => Except.ok { server_configs := cs }

/-- Client constructor that always raises, for witnesses. -/
def failCtor : List ServerConfig → Except String McpClient := fun _ => Except.error "connect failed"

/-- An optional string that, when present, is non-empty (an unset argument or
environment variable, or one holding a non-empty value). -/
def optNonEmpty (o : Option String) : Prop := ∀ s, o = some s → s ≠ ""

/-- Environment whose MCP auth token is set to the empty string, for the C7
counterexample. -/
def envEmptyTok : Env := { litellm_base_url := none, ai_model_name := none,
                           litellm_auth_token := none, codexhub_mcp_auth_token := some "" }

/-- Environment with a genuine MCP auth token, for witnesses. -/
def envTok : Env := { litellm_base_url := none, ai_model_name := none,
                      litellm_auth_token := none, codexhub_mcp_auth_token := some "secret" }

/-! ## Helper lemmas (shared across claims) -/

/-- `execute` never mutates the agent: its post-state is its pre-state. -/
theorem execute_fst (a : Agent) (oracle : Dispatch → Except String String)
    (p : String) (u : Bool) : (execute a oracle p u).1 = a := by
  unfold execute
  cases oracle (execDispatch a p u) <;> rfl

/-- Every response produced by `execute` satisfies the spec invariant. -/
theorem execute_invariant_aux (a : Agent) (oracle : Dispatch → Except String String)
    (p : String) (u : Bool) : responseInvariant (execute a oracle p u).2 := by
  unfold execute responseInvariant
  cases oracle (execDispatch a p u) with
  | ok c => simp
  | error e => simp

/-- `setup_mcp` keeps the tool list empty (it either resets it to `[]` or, in
the except branch, leaves the prior value alone). -/
theorem setup_mcp_tools_nil (a : Agent) (clientCtor : List ServerConfig → Except String McpClient)
    (cfgs : List ServerConfig) (h : a.mcp_tools = []) :
    (setup_mcp a clientCtor cfgs).mcp_tools = [] := by
  unfold setup_mcp
  cases clientCtor cfgs with
  | ok c => rfl
  | error e => exact h

/-- `setup_web_search_mcp` keeps the tool list empty. -/
theorem setup_web_tools_nil (a : Agent) (env : Env)
    (clientCtor : List ServerConfig → Except String McpClient) (h : a.mcp_tools = []) :
    (setup_web_search_mcp a env clientCtor).mcp_tools = [] := by
  unfold setup_web_search_mcp
  split
  · split
    · exact setup_mcp_tools_nil _ _ _ h
    · exact h
  · exact h

/-- In every reachable agent state the bound tool list is empty. -/
theorem reachable_tools_nil (a : Agent) (h : Reachable a) : a.mcp_tools = [] := by
  induction h with
  | base config sp => rfl
  | chat config => rfl
  | search config env clientCtor => exact setup_web_tools_nil _ _ _ rfl
  | setup a2 clientCtor cfgs h2 ih => exact setup_mcp_tools_nil _ _ _ ih
  | exec a2 oracle p u h2 ih => rw [execute_fst]; exact ih

/-- With no MCP client, `execDispatch` always takes the plain path. -/
theorem execDispatch_plain_of_no_client (a : Agent) (hc : a.mcp_client = none)
    (p : String) (u : Bool) : execDispatch a p u = Dispatch.plain (mkMessages a p) := by
  unfold execDispatch
  rw [hc]
  simp

/-- With no MCP client and an empty tool list, `use_tools` is irrelevant:
both calls produce identical results. -/
theorem exec_flag_irrelevant (a : Agent) (hc : a.mcp_client = none) (ht : a.mcp_tools = [])
    (oracle : Dispatch → Except String String) (p : String) :
    execute a oracle p true = execute a oracle p false := by
  unfold execute
  rw [execDispatch_plain_of_no_client a hc, execDispatch_plain_of_no_client a hc, ht]
  cases oracle (Dispatch.plain (mkMessages a p)) <;> rfl

/-- When the token is unset, empty, or the placeholder, `SearchAgent.__init__`
produces exactly the base agent with the research prompt (setup skipped). -/
theorem search_init_disabled (config : AgentConfig) (env : Env)
    (clientCtor : List ServerConfig → Except String McpClient)
    (h : env.codexhub_mcp_auth_token = none ∨ env.codexhub_mcp_auth_token = some "" ∨
         env.codexhub_mcp_auth_token = some "dummy-key") :
    SearchAgent.init config env clientCtor = BaseAgent.init config searchSystemPrompt := by
  unfold SearchAgent.init setup_web_search_mcp
  rcases h with h | h | h <;> rw [h] <;> simp

/-- A field resolved by the `__post_init__` chain is non-empty provided the
explicit value and the environment value, when present, are non-empty and the
default is non-empty. -/
theorem resolve_chain_ne_empty (o e : Option String) (d : String)
    (ho : optNonEmpty o) (he : optNonEmpty e) (hd : d ≠ "") : o.getD (e.getD d) ≠ "" := by
  cases o with
  | some s => exact ho s rfl
  | none =>
    cases e with
    | some s => exact he s rfl
    | none => exact hd

/-! ## Claims -/

/-- C1, counterexample to the claim as stated: when the model call raises an
exception whose message (`str(e)`) is empty — e.g. a bare `Exception()` —
`execute` returns `error = some ""`: the error field is present but NOT a
non-empty message, contrary to the claim's `error: <non-empty human-readable
message>`. -/
theorem c1_counterexample :
    (execute (ChatAgent.init cfg0) emptyErrOracle "hi" true).2 =
      { success := false, content := "", metadata := [], error := some "" } := rfl

/-- C1 (amended): if any exception is raised during dispatch inside `execute`
(model call, tool binding, or response handling — all modelled by the oracle
raising), `execute` catches it and returns
`AgentResponse{success: false, content: "", error: str(e)}` with the error
field always present (it is non-empty exactly when the exception's message
is); no exception escapes `execute`, which is a total function. -/
theorem c1_execute_catches (a : Agent) (oracle : Dispatch → Except String String)
    (p : String) (u : Bool) (e : String)
    (h : oracle (execDispatch a p u) = Except.error e) :
    (execute a oracle p u).2 =
      { success := false, content := "", metadata := [], error := some e } := by
  unfold execute
  rw [h]

/-- C1 witness: the amended theorem applied to a concrete failing oracle. -/
theorem c1_execute_catches_witness :
    (execute (ChatAgent.init cfg0) boomOracle "hi" true).2 =
      { success := false, content := "", metadata := [], error := some "boom" } :=
  c1_execute_catches (ChatAgent.init cfg0) boomOracle "hi" true "boom" rfl

/-- C2, counterexample to the claim as stated: the invariant does not hold for
every instance of the type `AgentResponse` — pydantic constrains only field
types, so the instance `{success: false, content: "not empty", error: None}`
is a perfectly valid value of the type and violates both halves of the
`success = false` implication. -/
theorem c2_counterexample :
    ¬ responseInvariant
        { success := false, content := "not empty", metadata := [], error := none } := by
  decide

/-- C2 (amended): the invariant — `success = true` implies `error` absent,
`success = false` implies `content = ""` and `error` present — holds for every
`AgentResponse` produced by `execute` (for every agent, oracle, prompt and
flag), though not for arbitrary instances of the type. -/
theorem c2_execute_invariant (a : Agent) (oracle : Dispatch → Except String String)
    (p : String) (u : Bool) : responseInvariant (execute a oracle p u).2 :=
  execute_invariant_aux a oracle p u

/-- C3, counterexample to the claim as stated: resolution substitutes defaults
only for `None` (unset) values; an explicitly supplied empty string survives,
so not every combination of constructor arguments yields non-empty fields. -/
theorem c3_counterexample :
    (AgentConfig.resolve (some "") none none envNone).api_base_url = "" := rfl

/-- C3 (amended): resolution is a total function (it never fails), and all
three resolved fields are non-empty provided every explicitly supplied
argument and every set environment variable is non-empty (in particular
whenever they are all unset, since the fixed defaults are non-empty);
an explicit empty-string argument or an environment variable set to the
empty string passes through and leaves that field empty. -/
theorem c3_resolution_nonempty (b m k : Option String) (env : Env)
    (hb : optNonEmpty b) (hm : optNonEmpty m) (hk : optNonEmpty k)
    (heb : optNonEmpty env.litellm_base_url) (hem : optNonEmpty env.ai_model_name)
    (hek : optNonEmpty env.litellm_auth_token) :
    (AgentConfig.resolve b m k env).api_base_url ≠ "" ∧
    (AgentConfig.resolve b m k env).model_name ≠ "" ∧
    (AgentConfig.resolve b m k env).api_key ≠ "" :=
  ⟨resolve_chain_ne_empty b env.litellm_base_url defaultBaseUrl hb heb (by decide),
   resolve_chain_ne_empty m env.ai_model_name defaultModelName hm hem (by decide),
   resolve_chain_ne_empty k env.litellm_auth_token defaultApiKey hk hek (by decide)⟩

/-- C3 witness: the amended theorem at the all-unset environment. -/
theorem c3_resolution_nonempty_witness :
    (AgentConfig.resolve none none none envNone).api_base_url ≠ "" ∧
    (AgentConfig.resolve none none none envNone).model_name ≠ "" ∧
    (AgentConfig.resolve none none none envNone).api_key ≠ "" :=
  c3_resolution_nonempty none none none envNone
    (fun _ h => nomatch h) (fun _ h => nomatch h) (fun _ h => nomatch h)
    (fun _ h => nomatch h) (fun _ h => nomatch h) (fun _ h => nomatch h)

/-- If the client constructor always raises, `SearchAgent.__init__` still
completes and its MCP client is unset, whatever the environment. -/
theorem search_init_client_none_of_fail (config : AgentConfig) (env : Env)
    (clientCtor : List ServerConfig → Except String McpClient) (e : String)
    (h : ∀ cs, clientCtor cs = Except.error e) :
    (SearchAgent.init config env clientCtor).mcp_client = none := by
  unfold SearchAgent.init setup_web_search_mcp
  split
  · split
    · unfold setup_mcp
      rw [h]
    · rfl
  · rfl

/-- C4: when the model dispatch inside `execute` succeeds with some text,
`execute` returns `success = true`, that text as `content`, no error, and
metadata carrying the configured model name and, as `tools_used`, the count
of bound tools when `use_tools` was true and `0` otherwise. -/
theorem c4_success_envelope (a : Agent) (oracle : Dispatch → Except String String)
    (p : String) (u : Bool) (content : String)
    (h : oracle (execDispatch a p u) = Except.ok content) :
    (execute a oracle p u).2 =
      { success := true
        content := content
        metadata := [("model", MetaVal.str a.config.model_name),
                     ("tools_used", MetaVal.nat (if u then a.mcp_tools.length else 0))]
        error := none } := by
  unfold execute
  rw [h]

/-- C4 witness: the theorem applied to a concrete succeeding oracle. -/
theorem c4_success_envelope_witness :
    (execute (ChatAgent.init cfg0) okOracle "capital of France?" true).2 =
      { success := true
        content := "Paris"
        metadata := [("model", MetaVal.str (ChatAgent.init cfg0).config.model_name),
                     ("tools_used", MetaVal.nat (if true then (ChatAgent.init cfg0).mcp_tools.length else 0))]
        error := none } :=
  c4_success_envelope (ChatAgent.init cfg0) okOracle "capital of France?" true "Paris" rfl

/-- C5: `get_capabilities` always contains `"text_generation"` and
`"conversation"`, contains `"mcp_enabled"` exactly when the MCP client is set,
and on a freshly constructed `ChatAgent` returns exactly
`["text_generation", "conversation"]`. -/
theorem c5_capabilities (a : Agent) (config : AgentConfig) :
    "text_generation" ∈ get_capabilities a ∧
    "conversation" ∈ get_capabilities a ∧
    ("mcp_enabled" ∈ get_capabilities a ↔ a.mcp_client.isSome = true) ∧
    get_capabilities (ChatAgent.init config) = ["text_generation", "conversation"] := by
  refine ⟨?_, ?_, ?_, rfl⟩
  · unfold get_capabilities
    split <;> simp
  · unfold get_capabilities
    split <;> simp
  · unfold get_capabilities
    by_cases hc : a.mcp_client.isSome = true
    · rw [if_pos hc]
      simp [hc]
    · rw [if_neg hc]
      simpa using hc

/-- C6: if MCP client construction raises, the exception is swallowed:
`setup_mcp` leaves the client unset, every later `execute` takes the plain
dispatch path and its response satisfies the envelope invariant; likewise
`SearchAgent` construction with a raising constructor completes with the
client unset and still executes in tools-disabled mode. -/
theorem c6_setup_fail_open (a : Agent)
    (clientCtor : List ServerConfig → Except String McpClient)
    (cfgs : List ServerConfig) (e : String) (config : AgentConfig) (env : Env)
    (oracle : Dispatch → Except String String) (p : String) (u : Bool)
    (h : ∀ cs, clientCtor cs = Except.error e) :
    (setup_mcp a clientCtor cfgs).mcp_client = none ∧
    execDispatch (setup_mcp a clientCtor cfgs) p u =
      Dispatch.plain (mkMessages (setup_mcp a clientCtor cfgs) p) ∧
    responseInvariant (execute (setup_mcp a clientCtor cfgs) oracle p u).2 ∧
    (SearchAgent.init config env clientCtor).mcp_client = none ∧
    execDispatch (SearchAgent.init config env clientCtor) p u =
      Dispatch.plain (mkMessages (SearchAgent.init config env clientCtor) p) ∧
    responseInvariant (execute (SearchAgent.init config env clientCtor) oracle p u).2 := by
  have h1 : (setup_mcp a clientCtor cfgs).mcp_client = none := by
    unfold setup_mcp
    rw [h]
  have h2 : (SearchAgent.init config env clientCtor).mcp_client = none :=
    search_init_client_none_of_fail config env clientCtor e h
  exact ⟨h1, execDispatch_plain_of_no_client _ h1 p u, execute_invariant_aux _ oracle p u,
         h2, execDispatch_plain_of_no_client _ h2 p u, execute_invariant_aux _ oracle p u⟩

/-- C6 witness: the theorem at a concrete always-raising constructor. -/
theorem c6_setup_fail_open_witness :
    (setup_mcp (ChatAgent.init cfg0) failCtor []).mcp_client = none ∧
    execDispatch (setup_mcp (ChatAgent.init cfg0) failCtor []) "hi" true =
      Dispatch.plain (mkMessages (setup_mcp (ChatAgent.init cfg0) failCtor []) "hi") ∧
    responseInvariant (execute (setup_mcp (ChatAgent.init cfg0) failCtor []) okOracle "hi" true).2 ∧
    (SearchAgent.init cfg0 envTok failCtor).mcp_client = none ∧
    execDispatch (SearchAgent.init cfg0 envTok failCtor) "hi" true =
      Dispatch.plain (mkMessages (SearchAgent.init cfg0 envTok failCtor) "hi") ∧
    responseInvariant (execute (SearchAgent.init cfg0 envTok failCtor) okOracle "hi" true).2 :=
  c6_setup_fail_open (ChatAgent.init cfg0) failCtor [] "connect failed" cfg0 envTok
    okOracle "hi" true (fun _ => rfl)

/-- C7, counterexample to the claim as stated: with the token environment
variable SET to the empty string — which is set and differs from the
placeholder `"dummy-key"` — setup is nonetheless skipped (Python truthiness:
`if mcp_token and ...` is false for `""`): even with an always-succeeding
client constructor the search agent ends with no MCP client, whereas an
actual invocation of setup with that constructor would have set one. -/
theorem c7_counterexample :
    envEmptyTok.codexhub_mcp_auth_token = some "" ∧
    "" ≠ "dummy-key" ∧
    (SearchAgent.init cfg0 envEmptyTok okCtor).mcp_client = none ∧
    (setup_mcp (BaseAgent.init cfg0 searchSystemPrompt) okCtor
      [{ type := "http", url := webSearchUrl, headers := [("x-team-key", "")] }]).mcp_client ≠
      none := by
  refine ⟨rfl, by decide, rfl, by decide⟩

/-- C7 (amended): on `SearchAgent` construction, tool setup is invoked if and
only if the auth-token environment variable is set, NON-EMPTY, and not the
placeholder `"dummy-key"`; when invoked, exactly one server description is
built — HTTP transport, the fixed search-service URL, and an `x-team-key`
header carrying the token — and passed to `setup_mcp`; otherwise setup is
skipped and the agent is exactly the tools-disabled base agent. -/
theorem c7_token_gating (config : AgentConfig) (env : Env)
    (clientCtor : List ServerConfig → Except String McpClient) :
    (∀ t, env.codexhub_mcp_auth_token = some t → t ≠ "" → t ≠ "dummy-key" →
      SearchAgent.init config env clientCtor =
        setup_mcp (BaseAgent.init config searchSystemPrompt) clientCtor
          [{ type := "http", url := webSearchUrl, headers := [("x-team-key", t)] }]) ∧
    (∀ t, env.codexhub_mcp_auth_token = some t → (t = "" ∨ t = "dummy-key") →
      SearchAgent.init config env clientCtor = BaseAgent.init config searchSystemPrompt) ∧
    (env.codexhub_mcp_auth_token = none →
      SearchAgent.init config env clientCtor = BaseAgent.init config searchSystemPrompt) := by
  refine ⟨?_, ?_, ?_⟩
  · intro t h h1 h2
    unfold SearchAgent.init setup_web_search_mcp
    rw [h]
    simp [h1, h2]
  · intro t h hor
    unfold SearchAgent.init setup_web_search_mcp
    rw [h]
    rcases hor with h1 | h1 <;> subst h1 <;> simp
  · intro h
    unfold SearchAgent.init setup_web_search_mcp
    rw [h]

/-- C7 witness: the amended theorem applied to a genuine token. -/
theorem c7_token_gating_witness :
    SearchAgent.init cfg0 envTok okCtor =
      setup_mcp (BaseAgent.init cfg0 searchSystemPrompt) okCtor
        [{ type := "http", url := webSearchUrl, headers := [("x-team-key", "secret")] }] :=
  (c7_token_gating cfg0 envTok okCtor).1 "secret" rfl (by decide) (by decide)

/-- C8: for a search agent whose MCP client is absent because the token is
missing or the placeholder, `execute` with `use_tools = true` is identical to
`execute` with `use_tools = false`: the client is unset, dispatch takes the
plain path, and the two results (post-state and full response envelope) are
equal. -/
theorem c8_flag_equivalence (config : AgentConfig) (env : Env)
    (clientCtor : List ServerConfig → Except String McpClient)
    (oracle : Dispatch → Except String String) (p : String)
    (h : env.codexhub_mcp_auth_token = none ∨ env.codexhub_mcp_auth_token = some "" ∨
         env.codexhub_mcp_auth_token = some "dummy-key") :
    (SearchAgent.init config env clientCtor).mcp_client = none ∧
    execDispatch (SearchAgent.init config env clientCtor) p true =
      Dispatch.plain (mkMessages (SearchAgent.init config env clientCtor) p) ∧
    execute (SearchAgent.init config env clientCtor) oracle p true =
      execute (SearchAgent.init config env clientCtor) oracle p false := by
  rw [search_init_disabled config env clientCtor h]
  exact ⟨rfl, execDispatch_plain_of_no_client _ rfl p true,
         exec_flag_irrelevant _ rfl rfl oracle p⟩

/-- C8 witness: the theorem at an environment with no token at all. -/
theorem c8_flag_equivalence_witness :
    (SearchAgent.init cfg0 envNone okCtor).mcp_client = none ∧
    execDispatch (SearchAgent.init cfg0 envNone okCtor) "hi" true =
      Dispatch.plain (mkMessages (SearchAgent.init cfg0 envNone okCtor) "hi") ∧
    execute (SearchAgent.init cfg0 envNone okCtor) okOracle "hi" true =
      execute (SearchAgent.init cfg0 envNone okCtor) okOracle "hi" false :=
  c8_flag_equivalence cfg0 envNone okCtor okOracle "hi" (Or.inl rfl)

/-- C9: `execute` mutates nothing — its post-state equals its pre-state, field
by field (configuration, system prompt, MCP client, bound tool list); only the
explicit setup operations ever produce a different state. -/
theorem c9_execute_frame (a : Agent) (oracle : Dispatch → Except String String)
    (p : String) (u : Bool) :
    (execute a oracle p u).1 = a ∧
    (execute a oracle p u).1.config = a.config ∧
    (execute a oracle p u).1.system_prompt = a.system_prompt ∧
    (execute a oracle p u).1.mcp_client = a.mcp_client ∧
    (execute a oracle p u).1.mcp_tools = a.mcp_tools := by
  have h := execute_fst a oracle p u
  exact ⟨h, by rw [h], by rw [h], by rw [h], by rw [h]⟩

/-- C10: in every reachable agent state the bound tool list is empty —
construction sets it to `[]`, `setup_mcp` keeps it `[]`, no operation ever
adds a tool — so the tool-aware branch of `execute` is never taken (dispatch
is always plain) and every successful response reports `tools_used = 0`. -/
theorem c10_no_tools_ever (a : Agent) (oracle : Dispatch → Except String String)
    (p : String) (u : Bool) (h : Reachable a) :
    a.mcp_tools = [] ∧
    execDispatch a p u = Dispatch.plain (mkMessages a p) ∧
    ((execute a oracle p u).2.success = true →
      (execute a oracle p u).2.metadata =
        [("model", MetaVal.str a.config.model_name), ("tools_used", MetaVal.nat 0)]) := by
  have ht := reachable_tools_nil a h
  have hd : execDispatch a p u = Dispatch.plain (mkMessages a p) := by
    unfold execDispatch
    rw [ht]
    simp
  refine ⟨ht, hd, ?_⟩
  intro hs
  cases hc : oracle (execDispatch a p u) with
  | ok c =>
    unfold execute
    rw [hc]
    simp [ht]
  | error e =>
    unfold execute at hs
    rw [hc] at hs
    simp at hs

/-- C10 witness: the theorem at a concrete chat agent and succeeding oracle. -/
theorem c10_no_tools_ever_witness :
    (ChatAgent.init cfg0).mcp_tools = [] ∧
    execDispatch (ChatAgent.init cfg0) "hi" true =
      Dispatch.plain (mkMessages (ChatAgent.init cfg0) "hi") ∧
    ((execute (ChatAgent.init cfg0) okOracle "hi" true).2.success = true →
      (execute (ChatAgent.init cfg0) okOracle "hi" true).2.metadata =
        [("model", MetaVal.str (ChatAgent.init cfg0).config.model_name),
         ("tools_used", MetaVal.nat 0)]) :=
  c10_no_tools_ever (ChatAgent.init cfg0) okOracle "hi" true (Reachable.chat cfg0)
